import Mathlib

/-!
Shallow embedding of `nom-sql/src/parser.rs` (ReadySet's SQL statement
dispatch layer): the `SqlQuery` sum type, its classification
(`query_type`), its `Display`/`FromStr` glue, the ordered-alternative
dispatcher `sql_query`, and the public entry-point family
(`parse_query_bytes`, `parse_query`, `parse_select_statement*`,
`parse_create_table*`, `parse_alter_table*`, `parse_key_specification*`).

The per-statement sub-grammars (`creation`, `insertion`, `selection`, …)
and the statement AST node types live in other crates/modules of the
repository and are external collaborators of this core (spec §1/§2);
they are modelled abstractly: node types are opaque token payloads, and
the family of sub-parsers is a parameter (`SubParsers`) with the
collaborator signature the spec gives:
`(dialect) -> (bytes) -> Result<(node, remaining_bytes), ParseFailure)`.

Byte slices are `List Nat`; text input is `List Char`. Parse results
follow the spec's flat error taxonomy (spec §3, §7): `Option (remainder ×
node)`, the single opaque failure collapsing nom's error structure, which
is external to this core.
-/

/-- Modelled from the spec: `Dialect` is an enumerated copyable selector
(e.g. MySQL, PostgreSQL) with no owned state (spec §3); its internal
rules are out of scope. -/
inductive Dialect where
  | MySQL
  | PostgreSQL
  deriving DecidableEq, Repr

/-- Modelled from the spec: external statement AST node type for CREATE
TABLE (spec §2); its structure is out of scope, kept as an opaque token
payload. -/
structure CreateTableStatement where
  tokens : List Nat
  deriving DecidableEq, Repr

/-- Modelled from the spec: external AST node type for CREATE VIEW. -/
structure CreateViewStatement where
  tokens : List Nat
  deriving DecidableEq, Repr

/-- Modelled from the spec: external AST node type for CREATE CACHE. -/
structure CreateCacheStatement where
  tokens : List Nat
  deriving DecidableEq, Repr

/-- Modelled from the spec: external AST node type for DROP CACHE. -/
structure DropCacheStatement where
  tokens : List Nat
  deriving DecidableEq, Repr

/-- Modelled from the spec: external AST node type for ALTER TABLE. -/
structure AlterTableStatement where
  tokens : List Nat
  deriving DecidableEq, Repr

/-- Modelled from the spec: external AST node type for INSERT. -/
structure InsertStatement where
  tokens : List Nat
  deriving DecidableEq, Repr

/-- Modelled from the spec: external AST node type for compound SELECT. -/
structure CompoundSelectStatement where
  tokens : List Nat
  deriving DecidableEq, Repr

/-- Modelled from the spec: external AST node type for SELECT. -/
structure SelectStatement where
  tokens : List Nat
  deriving DecidableEq, Repr

/-- Modelled from the spec: external AST node type for DELETE. -/
structure DeleteStatement where
  tokens : List Nat
  deriving DecidableEq, Repr

/-- Modelled from the spec: external AST node type for DROP TABLE. -/
structure DropTableStatement where
  tokens : List Nat
  deriving DecidableEq, Repr

/-- Modelled from the spec: external AST node type for DROP VIEW. -/
structure DropViewStatement where
  tokens : List Nat
  deriving DecidableEq, Repr

/-- Modelled from the spec: external AST node type for UPDATE. -/
structure UpdateStatement where
  tokens : List Nat
  deriving DecidableEq, Repr

/-- Modelled from the spec: external AST node type for SET. -/
structure SetStatement where
  tokens : List Nat
  deriving DecidableEq, Repr

/-- Modelled from the spec: external AST node type for START TRANSACTION. -/
structure StartTransactionStatement where
  tokens : List Nat
  deriving DecidableEq, Repr

/-- Modelled from the spec: external AST node type for COMMIT. -/
structure CommitStatement where
  tokens : List Nat
  deriving DecidableEq, Repr

/-- Modelled from the spec: external AST node type for ROLLBACK. -/
structure RollbackStatement where
  tokens : List Nat
  deriving DecidableEq, Repr

/-- Modelled from the spec: external AST node type for RENAME TABLE. -/
structure RenameTableStatement where
  tokens : List Nat
  deriving DecidableEq, Repr

/-- Modelled from the spec: external AST node type for USE. -/
structure UseStatement where
  tokens : List Nat
  deriving DecidableEq, Repr

/-- Modelled from the spec: external AST node type for SHOW. -/
structure ShowStatement where
  tokens : List Nat
  deriving DecidableEq, Repr

/-- Modelled from the spec: external AST node type for EXPLAIN. -/
structure ExplainStatement where
  tokens : List Nat
  deriving DecidableEq, Repr

/-- Modelled from the spec: external key/constraint specification node
(`TableKey`, output of `parse_key_specification*`). -/
structure TableKey where
  tokens : List Nat
  deriving DecidableEq, Repr

/-- The closed sum type over all statement AST node types, variants in the
declaration order of `pub enum SqlQuery` (parser.rs lines 35-56). The
source derives `Clone, Debug, Eq, Hash, PartialEq`; structural equality is
`DecidableEq` here. -/
inductive SqlQuery where
  | CreateTable (s : CreateTableStatement)
  | CreateView (s : CreateViewStatement)
  | CreateCache (s : CreateCacheStatement)
  | DropCache (s : DropCacheStatement)
  | AlterTable (s : AlterTableStatement)
  | Insert (s : InsertStatement)
  | CompoundSelect (s : CompoundSelectStatement)
  | Select (s : SelectStatement)
  | Delete (s : DeleteStatement)
  | DropTable (s : DropTableStatement)
  | DropView (s : DropViewStatement)
  | Update (s : UpdateStatement)
  | Set (s : SetStatement)
  | StartTransaction (s : StartTransactionStatement)
  | Commit (s : CommitStatement)
  | Rollback (s : RollbackStatement)
  | RenameTable (s : RenameTableStatement)
  | Use (s : UseStatement)
  | Show (s : ShowStatement)
  | Explain (s : ExplainStatement)
  deriving DecidableEq, Repr

/-- `SqlQuery::query_type` (parser.rs lines 95-118): the type of the
query, e.g. "CREATE TABLE" or "SELECT", in the source's match-arm order. -/
def SqlQuery.query_type : SqlQuery → String
  | .Select _ => "SELECT"
  | .Insert _ => "INSERT"
  | .CreateTable _ => "CREATE TABLE"
  | .CreateView _ => "CREATE VIEW"
  | .CreateCache _ => "CREATE CACHE"
  | .DropCache _ => "DROP CACHE"
  | .Delete _ => "DELETE"
  | .DropTable _ => "DROP TABLE"
  | .DropView _ => "DROP VIEW"
  | .Update _ => "UPDATE"
  | .Set _ => "SET"
  | .AlterTable _ => "ALTER TABLE"
  | .CompoundSelect _ => "SELECT"
  | .StartTransaction _ => "START TRANSACTION"
  | .Commit _ => "COMMIT"
  | .Rollback _ => "ROLLBACK"
  | .RenameTable _ => "RENAME"
  | .Use _ => "USE"
  | .Show _ => "SHOW"
  | .Explain _ => "EXPLAIN"

/-- The Rust discriminant of the active variant, in declaration order of
the `SqlQuery` enum. -/
def SqlQuery.discr : SqlQuery → Nat
  | .CreateTable _ => 0
  | .CreateView _ => 1
  | .CreateCache _ => 2
  | .DropCache _ => 3
  | .AlterTable _ => 4
  | .Insert _ => 5
  | .CompoundSelect _ => 6
  | .Select _ => 7
  | .Delete _ => 8
  | .DropTable _ => 9
  | .DropView _ => 10
  | .Update _ => 11
  | .Set _ => 12
  | .StartTransaction _ => 13
  | .Commit _ => 14
  | .Rollback _ => 15
  | .RenameTable _ => 16
  | .Use _ => 17
  | .Show _ => 18
  | .Explain _ => 19

/-- A byte-level parse result: `(unconsumed remainder, node)` on success,
`none` on failure. Modelled from the spec: nom's `IResult` with the flat
opaque failure of spec §3/§7 (error structure is external to this core). -/
abbrev IResultP (α : Type) := Option (List Nat × α)

/-- The family of external statement sub-parsers the dispatcher imports
(parser.rs lines 8-30), each with the collaborator signature of spec §6.
`explain_statement` takes no dialect, exactly as in the source (line 143).
Modelled from the spec: the sub-grammars themselves are out of scope. -/
structure SubParsers where
  creation : Dialect → List Nat → IResultP CreateTableStatement
  insertion : Dialect → List Nat → IResultP InsertStatement
  compound_selection : Dialect → List Nat → IResultP CompoundSelectStatement
  selection : Dialect → List Nat → IResultP SelectStatement
  deletion : Dialect → List Nat → IResultP DeleteStatement
  drop_table : Dialect → List Nat → IResultP DropTableStatement
  drop_view : Dialect → List Nat → IResultP DropViewStatement
  updating : Dialect → List Nat → IResultP UpdateStatement
  set : Dialect → List Nat → IResultP SetStatement
  view_creation : Dialect → List Nat → IResultP CreateViewStatement
  create_cached_query : Dialect → List Nat → IResultP CreateCacheStatement
  drop_cached_query : Dialect → List Nat → IResultP DropCacheStatement
  alter_table_statement : Dialect → List Nat → IResultP AlterTableStatement
  start_transaction : Dialect → List Nat → IResultP StartTransactionStatement
  commit : Dialect → List Nat → IResultP CommitStatement
  rollback : Dialect → List Nat → IResultP RollbackStatement
  rename_table : Dialect → List Nat → IResultP RenameTableStatement
  use_statement : Dialect → List Nat → IResultP UseStatement
  show_stmt : Dialect → List Nat → IResultP ShowStatement
  explain_statement : List Nat → IResultP ExplainStatement
  key_specification : Dialect → List Nat → IResultP TableKey

/-- nom's `map` combinator: apply `f` to the parsed node, keep the
remainder. -/
def mapP {α β : Type} (p : List Nat → IResultP α) (f : α → β) :
    List Nat → IResultP β :=
  fun i => (p i).map (fun r => (r.1, f r.2))

/-- nom's binary alternative: try `p`; on failure backtrack fully (the
input is untouched) and try `q`. -/
def alt2 {β : Type} (p q : List Nat → IResultP β) : List Nat → IResultP β :=
  fun i =>
    match p i with
    | some r => some r
    | none => q i

/-- `sql_query` (parser.rs lines 121-146): the dispatcher, nom's `alt`
over the twenty mapped sub-parsers in the source's order, as a right-nested
chain of binary alternatives. -/
def sql_query (sp : SubParsers) (dialect : Dialect) :
    List Nat → IResultP SqlQuery :=
  fun i =>
    alt2 (mapP (sp.creation dialect) SqlQuery.CreateTable)
      (alt2 (mapP (sp.insertion dialect) SqlQuery.Insert)
        (alt2 (mapP (sp.compound_selection dialect) SqlQuery.CompoundSelect)
          (alt2 (mapP (sp.selection dialect) SqlQuery.Select)
            (alt2 (mapP (sp.deletion dialect) SqlQuery.Delete)
              (alt2 (mapP (sp.drop_table dialect) SqlQuery.DropTable)
                (alt2 (mapP (sp.drop_view dialect) SqlQuery.DropView)
                  (alt2 (mapP (sp.updating dialect) SqlQuery.Update)
                    (alt2 (mapP (sp.set dialect) SqlQuery.Set)
                      (alt2 (mapP (sp.view_creation dialect) SqlQuery.CreateView)
                        (alt2 (mapP (sp.create_cached_query dialect) SqlQuery.CreateCache)
                          (alt2 (mapP (sp.drop_cached_query dialect) SqlQuery.DropCache)
                            (alt2 (mapP (sp.alter_table_statement dialect) SqlQuery.AlterTable)
                              (alt2 (mapP (sp.start_transaction dialect) SqlQuery.StartTransaction)
                                (alt2 (mapP (sp.commit dialect) SqlQuery.Commit)
                                  (alt2 (mapP (sp.rollback dialect) SqlQuery.Rollback)
                                    (alt2 (mapP (sp.rename_table dialect) SqlQuery.RenameTable)
                                      (alt2 (mapP (sp.use_statement dialect) SqlQuery.Use)
                                        (alt2 (mapP (sp.show_stmt dialect) SqlQuery.Show)
                                          (mapP sp.explain_statement SqlQuery.Explain))))))))))))))))))) i

/-- `parse_query_bytes` (parser.rs lines 149-157): invoke the dispatcher
once; on success return the query, discarding the remainder; on failure
return the fixed opaque error. -/
def parse_query_bytes (sp : SubParsers) (dialect : Dialect)
    (input : List Nat) : Except String SqlQuery :=
  match sql_query sp dialect input with
  | some (_, o) => Except.ok o
  | none => Except.error "failed to parse query"

/-- Rust `str::trim`: strip leading and trailing whitespace characters. -/
def strTrim (s : List Char) : List Char :=
  ((s.dropWhile Char.isWhitespace).reverse.dropWhile Char.isWhitespace).reverse

/-- Rust `str::as_bytes`, abstracted: text as a byte sequence (one code
point per byte cell, enough for the ASCII SQL surface this core glues). -/
def asBytes (s : List Char) : List Nat :=
  s.map Char.toNat

/-- `parse_query` (parser.rs lines 161-166): trim the text, convert to
bytes, delegate to `parse_query_bytes`. -/
def parse_query (sp : SubParsers) (dialect : Dialect)
    (input : List Char) : Except String SqlQuery :=
  parse_query_bytes sp dialect (asBytes (strTrim input))

/-- `parse_select_statement_bytes` (parser.rs lines 169-180): invoke the
`selection` sub-parser directly and require an empty remainder. -/
def parse_select_statement_bytes (sp : SubParsers) (dialect : Dialect)
    (input : List Nat) : Except String SelectStatement :=
  match sp.selection dialect input with
  | some (remaining, o) =>
      if remaining = [] then Except.ok o
      else Except.error "failed to parse query"
  | none => Except.error "failed to parse query"

/-- `parse_select_statement` (parser.rs lines 183-191). -/
def parse_select_statement (sp : SubParsers) (dialect : Dialect)
    (input : List Char) : Except String SelectStatement :=
  parse_select_statement_bytes sp dialect (asBytes (strTrim input))

/-- `parse_create_table_bytes` (parser.rs lines 194-205): invoke
`creation` directly and require an empty remainder. -/
def parse_create_table_bytes (sp : SubParsers) (dialect : Dialect)
    (input : List Nat) : Except String CreateTableStatement :=
  match sp.creation dialect input with
  | some (remaining, o) =>
      if remaining = [] then Except.ok o
      else Except.error "failed to parse query"
  | none => Except.error "failed to parse query"

/-- `parse_create_table` (parser.rs lines 208-216). -/
def parse_create_table (sp : SubParsers) (dialect : Dialect)
    (input : List Char) : Except String CreateTableStatement :=
  parse_create_table_bytes sp dialect (asBytes (strTrim input))

/-- `parse_alter_table_bytes` (parser.rs lines 219-230): invoke
`alter_table_statement` directly and require an empty remainder. -/
def parse_alter_table_bytes (sp : SubParsers) (dialect : Dialect)
    (input : List Nat) : Except String AlterTableStatement :=
  match sp.alter_table_statement dialect input with
  | some (remaining, o) =>
      if remaining = [] then Except.ok o
      else Except.error "failed to parse query"
  | none => Except.error "failed to parse query"

/-- `parse_alter_table` (parser.rs lines 233-238). -/
def parse_alter_table (sp : SubParsers) (dialect : Dialect)
    (input : List Char) : Except String AlterTableStatement :=
  parse_alter_table_bytes sp dialect (asBytes (strTrim input))

/-- `parse_key_specification_bytes` (parser.rs lines 241-252): invoke
`key_specification`; success is returned regardless of remainder. -/
def parse_key_specification_bytes (sp : SubParsers) (dialect : Dialect)
    (input : List Nat) : Except String TableKey :=
  match sp.key_specification dialect input with
  | some (_, o) => Except.ok o
  | none => Except.error "failed to parse query"

/-- `parse_key_specification_string` (parser.rs lines 255-263). -/
def parse_key_specification_string (sp : SubParsers) (dialect : Dialect)
    (input : List Char) : Except String TableKey :=
  parse_key_specification_bytes sp dialect (asBytes (strTrim input))

/-- `impl str::FromStr for SqlQuery` (parser.rs lines 85-91):
`from_str(s)` is `parse_query(Dialect::MySQL, s)`. -/
def SqlQuery.from_str (sp : SubParsers) (s : List Char) :
    Except String SqlQuery :=
  parse_query sp Dialect.MySQL s

/-- Modelled from the spec: the external per-node textual renderers the
`Display` impl delegates to (spec §2, §4.4); each node type exposes a
total render-to-text operation. -/
structure NodeDisplays where
  select : SelectStatement → List Char
  insert : InsertStatement → List Char
  create_table : CreateTableStatement → List Char
  create_view : CreateViewStatement → List Char
  create_cache : CreateCacheStatement → List Char
  drop_cache : DropCacheStatement → List Char
  delete : DeleteStatement → List Char
  drop_table : DropTableStatement → List Char
  drop_view : DropViewStatement → List Char
  update : UpdateStatement → List Char
  set : SetStatement → List Char
  alter_table : AlterTableStatement → List Char
  compound_select : CompoundSelectStatement → List Char
  start_transaction : StartTransactionStatement → List Char
  commit : CommitStatement → List Char
  rollback : RollbackStatement → List Char
  rename_table : RenameTableStatement → List Char
  use_db : UseStatement → List Char
  show_stmt : ShowStatement → List Char
  explain : ExplainStatement → List Char

/-- `impl fmt::Display for SqlQuery` (parser.rs lines 58-83): dispatch by
variant to the active node's own renderer, with no transformation at this
layer; match arms in the source's order. -/
def SqlQuery.fmt (r : NodeDisplays) : SqlQuery → List Char
  | .Select s => r.select s
  | .Insert s => r.insert s
  | .CreateTable s => r.create_table s
  | .CreateView s => r.create_view s
  | .CreateCache s => r.create_cache s
  | .DropCache s => r.drop_cache s
  | .Delete s => r.delete s
  | .DropTable s => r.drop_table s
  | .DropView s => r.drop_view s
  | .Update s => r.update s
  | .Set s => r.set s
  | .AlterTable s => r.alter_table s
  | .CompoundSelect s => r.compound_select s
  | .StartTransaction s => r.start_transaction s
  | .Commit s => r.commit s
  | .Rollback s => r.rollback s
  | .RenameTable s => r.rename_table s
  | .Use s => r.use_db s
  | .Show s => r.show_stmt s
  | .Explain s => r.explain s

/-- The twenty mapped alternatives of the dispatcher, as an explicit list
in the fixed order of `sql_query`'s `alt` (parser.rs lines 124-143):
create-table, insert, compound-select, select, delete, drop-table,
drop-view, update, set, create-view, create-cache, drop-cache,
alter-table, start-transaction, commit, rollback, rename-table, use,
show, explain. -/
def parserList (sp : SubParsers) (dialect : Dialect) :
    List (List Nat → IResultP SqlQuery) :=
  [ mapP (sp.creation dialect) SqlQuery.CreateTable
  , mapP (sp.insertion dialect) SqlQuery.Insert
  , mapP (sp.compound_selection dialect) SqlQuery.CompoundSelect
  , mapP (sp.selection dialect) SqlQuery.Select
  , mapP (sp.deletion dialect) SqlQuery.Delete
  , mapP (sp.drop_table dialect) SqlQuery.DropTable
  , mapP (sp.drop_view dialect) SqlQuery.DropView
  , mapP (sp.updating dialect) SqlQuery.Update
  , mapP (sp.set dialect) SqlQuery.Set
  , mapP (sp.view_creation dialect) SqlQuery.CreateView
  , mapP (sp.create_cached_query dialect) SqlQuery.CreateCache
  , mapP (sp.drop_cached_query dialect) SqlQuery.DropCache
  , mapP (sp.alter_table_statement dialect) SqlQuery.AlterTable
  , mapP (sp.start_transaction dialect) SqlQuery.StartTransaction
  , mapP (sp.commit dialect) SqlQuery.Commit
  , mapP (sp.rollback dialect) SqlQuery.Rollback
  , mapP (sp.rename_table dialect) SqlQuery.RenameTable
  , mapP (sp.use_statement dialect) SqlQuery.Use
  , mapP (sp.show_stmt dialect) SqlQuery.Show
  , mapP sp.explain_statement SqlQuery.Explain ]

/-- First-match-wins semantics over an ordered list of alternatives: the
result of the first parser that succeeds on `i`; failure iff all fail.
This is the spec-side formulation of the ordered alternative (spec §4.2). -/
def firstSome {β : Type} : List (List Nat → IResultP β) → List Nat → IResultP β
  | [], _ => none
  | p :: rest, i =>
    match p i with
    | some r => some r
    | none => firstSome rest i

/-- The position at which the active variant's mapped sub-parser sits in
the dispatcher's alternative order. -/
def dispatchIndex : SqlQuery → Nat
  | .CreateTable _ => 0
  | .Insert _ => 1
  | .CompoundSelect _ => 2
  | .Select _ => 3
  | .Delete _ => 4
  | .DropTable _ => 5
  | .DropView _ => 6
  | .Update _ => 7
  | .Set _ => 8
  | .CreateView _ => 9
  | .CreateCache _ => 10
  | .DropCache _ => 11
  | .AlterTable _ => 12
  | .StartTransaction _ => 13
  | .Commit _ => 14
  | .Rollback _ => 15
  | .RenameTable _ => 16
  | .Use _ => 17
  | .Show _ => 18
  | .Explain _ => 19

/-- Derive-style structural equality on `SqlQuery` (the source's
`#[derive(PartialEq, Eq)]`): equal discriminant and equal wrapped node. -/
def SqlQuery.structEq : SqlQuery → SqlQuery → Bool
  | .CreateTable a, .CreateTable b => decide (a = b)
  | .CreateView a, .CreateView b => decide (a = b)
  | .CreateCache a, .CreateCache b => decide (a = b)
  | .DropCache a, .DropCache b => decide (a = b)
  | .AlterTable a, .AlterTable b => decide (a = b)
  | .Insert a, .Insert b => decide (a = b)
  | .CompoundSelect a, .CompoundSelect b => decide (a = b)
  | .Select a, .Select b => decide (a = b)
  | .Delete a, .Delete b => decide (a = b)
  | .DropTable a, .DropTable b => decide (a = b)
  | .DropView a, .DropView b => decide (a = b)
  | .Update a, .Update b => decide (a = b)
  | .Set a, .Set b => decide (a = b)
  | .StartTransaction a, .StartTransaction b => decide (a = b)
  | .Commit a, .Commit b => decide (a = b)
  | .Rollback a, .Rollback b => decide (a = b)
  | .RenameTable a, .RenameTable b => decide (a = b)
  | .Use a, .Use b => decide (a = b)
  | .Show a, .Show b => decide (a = b)
  | .Explain a, .Explain b => decide (a = b)
  | _, _ => false

/-- A simple polynomial mix of a token payload, standing in for the bytes
a node feeds the hasher. -/
def hashTokens (ts : List Nat) : Nat :=
  ts.foldl (fun h x => h * 31 + x + 1) 7

/-- The token payload of the active variant's wrapped node. -/
def SqlQuery.payload : SqlQuery → List Nat
  | .CreateTable s => s.tokens
  | .CreateView s => s.tokens
  | .CreateCache s => s.tokens
  | .DropCache s => s.tokens
  | .AlterTable s => s.tokens
  | .Insert s => s.tokens
  | .CompoundSelect s => s.tokens
  | .Select s => s.tokens
  | .Delete s => s.tokens
  | .DropTable s => s.tokens
  | .DropView s => s.tokens
  | .Update s => s.tokens
  | .Set s => s.tokens
  | .StartTransaction s => s.tokens
  | .Commit s => s.tokens
  | .Rollback s => s.tokens
  | .RenameTable s => s.tokens
  | .Use s => s.tokens
  | .Show s => s.tokens
  | .Explain s => s.tokens

/-- Modelled from the spec: the source's `#[derive(Hash)]` feeds the
discriminant and then the wrapped node's fields to the hasher, so the hash
is a pure function of (discriminant, node); a concrete mixing function
stands in for the external hasher. -/
def SqlQuery.hashQ (q : SqlQuery) : Nat :=
  q.discr * 1000003 + hashTokens q.payload

/-- Every character of the tag is an uppercase letter or a space. -/
def isUpperTag (s : String) : Bool :=
  s.toList.all (fun c => c.isUpper || c = ' ')

/-- The dispatcher's nested alternative equals first-match-wins over the
explicit ordered list of its twenty alternatives. -/
lemma sql_query_eq_firstSome (sp : SubParsers) (d : Dialect) (i : List Nat) :
    sql_query sp d i = firstSome (parserList sp d) i := by
  simp only [sql_query, parserList, firstSome, alt2]
  cases h : mapP sp.explain_statement SqlQuery.Explain i <;> simp [h]

/-- `firstSome` fails exactly when every alternative fails. -/
lemma firstSome_eq_none_iff {β : Type} (ps : List (List Nat → IResultP β))
    (i : List Nat) :
    firstSome ps i = none ↔ ∀ p ∈ ps, p i = none := by
  induction ps with
  | nil => simp [firstSome]
  | cons p rest ih =>
    cases h : p i with
    | none => simp [firstSome, h, ih]
    | some r => simp [firstSome, h]

/-- If every alternative before position `k` fails on `i` and the one at
`k` succeeds with `r`, first-match-wins returns `r`. -/
lemma firstSome_of_hit {β : Type} :
    ∀ (ps : List (List Nat → IResultP β)) (i : List Nat) (k : Nat)
      (hk : k < ps.length) (r : List Nat × β),
      (∀ j (hj : j < k), (ps.get ⟨j, lt_trans hj hk⟩) i = none) →
      (ps.get ⟨k, hk⟩) i = some r →
      firstSome ps i = some r := by
  intro ps
  induction ps with
  | nil => intro i k hk r _ _; exact absurd hk (by simp)
  | cons p rest ih =>
    intro i k hk r hpre hhit
    cases k with
    | zero =>
      simp only [List.get] at hhit
      simp [firstSome, hhit]
    | succ k' =>
      have h0 : p i = none := hpre 0 (Nat.succ_pos k')
      simp only [List.get] at hhit
      have hk' : k' < rest.length := Nat.lt_of_succ_lt_succ hk
      have := ih i k' hk' r
        (fun j hj => hpre (j + 1) (Nat.succ_lt_succ hj)) hhit
      simp [firstSome, h0, this]

/-- The payload of every concrete node used by the witness family. -/
def tok0 : List Nat := []

/-- A concrete sub-parser family exercising the entry-point glue:
`selection` accepts the byte 83 ('S') with an empty remainder and the byte
84 with the leftover `[9]`; `creation` accepts the byte 99 leaving the
remainder `[7]`; `key_specification` always succeeds echoing its input as
the remainder; every other sub-parser always fails. -/
def spX : SubParsers where
  creation := fun _ i => if i = [99] then some ([7], ⟨tok0⟩) else none
  insertion := fun _ _ => none
  compound_selection := fun _ _ => none
  selection := fun _ i =>
    if i = [83] then some ([], ⟨tok0⟩)
    else if i = [84] then some ([9], ⟨tok0⟩) else none
  deletion := fun _ _ => none
  drop_table := fun _ _ => none
  drop_view := fun _ _ => none
  updating := fun _ _ => none
  set := fun _ _ => none
  view_creation := fun _ _ => none
  create_cached_query := fun _ _ => none
  drop_cached_query := fun _ _ => none
  alter_table_statement := fun _ _ => none
  start_transaction := fun _ _ => none
  commit := fun _ _ => none
  rollback := fun _ _ => none
  rename_table := fun _ _ => none
  use_statement := fun _ _ => none
  show_stmt := fun _ _ => none
  explain_statement := fun _ => none
  key_specification := fun _ i => some (i, ⟨tok0⟩)

/-- A concrete renderer family: every node of every kind renders to the
single character matched by the corresponding `spX` sub-parser (`'S'` for
SELECT nodes), and the rest render to the empty text. -/
def rX : NodeDisplays where
  select := fun _ => ['S']
  insert := fun _ => []
  create_table := fun _ => []
  create_view := fun _ => []
  create_cache := fun _ => []
  drop_cache := fun _ => []
  delete := fun _ => []
  drop_table := fun _ => []
  drop_view := fun _ => []
  update := fun _ => []
  set := fun _ => []
  alter_table := fun _ => []
  compound_select := fun _ => []
  start_transaction := fun _ => []
  commit := fun _ => []
  rollback := fun _ => []
  rename_table := fun _ => []
  use_db := fun _ => []
  show_stmt := fun _ => []
  explain := fun _ => []

/-- The concrete query the witness family parses out of "S". -/
def qS : SqlQuery := SqlQuery.Select ⟨tok0⟩

/-- The witness family parses "S" to the SELECT query. -/
lemma spX_parses_S : parse_query spX Dialect.MySQL ['S'] = Except.ok qS := by
  rfl

/-- Either `parse_query_bytes` succeeds, or it returns the fixed opaque
error string. -/
lemma parse_query_bytes_shape (sp : SubParsers) (d : Dialect) (i : List Nat) :
    (∃ q, parse_query_bytes sp d i = Except.ok q) ∨
      parse_query_bytes sp d i = Except.error "failed to parse query" := by
  cases h : sql_query sp d i with
  | none => right; simp [parse_query_bytes, h]
  | some r => left; exact ⟨r.2, by simp [parse_query_bytes, h]⟩

/-- Either `parse_select_statement_bytes` succeeds, or it returns the
fixed opaque error string. -/
lemma parse_select_bytes_shape (sp : SubParsers) (d : Dialect) (i : List Nat) :
    (∃ q, parse_select_statement_bytes sp d i = Except.ok q) ∨
      parse_select_statement_bytes sp d i = Except.error "failed to parse query" := by
  cases h : sp.selection d i with
  | none => right; simp [parse_select_statement_bytes, h]
  | some r =>
    obtain ⟨rem, o⟩ := r
    by_cases hr : rem = []
    · left; exact ⟨o, by simp [parse_select_statement_bytes, h, hr]⟩
    · right; simp [parse_select_statement_bytes, h, hr]

/-- Either `parse_create_table_bytes` succeeds, or it returns the fixed
opaque error string. -/
lemma parse_create_table_bytes_shape (sp : SubParsers) (d : Dialect) (i : List Nat) :
    (∃ q, parse_create_table_bytes sp d i = Except.ok q) ∨
      parse_create_table_bytes sp d i = Except.error "failed to parse query" := by
  cases h : sp.creation d i with
  | none => right; simp [parse_create_table_bytes, h]
  | some r =>
    obtain ⟨rem, o⟩ := r
    by_cases hr : rem = []
    · left; exact ⟨o, by simp [parse_create_table_bytes, h, hr]⟩
    · right; simp [parse_create_table_bytes, h, hr]

/-- Either `parse_alter_table_bytes` succeeds, or it returns the fixed
opaque error string. -/
lemma parse_alter_table_bytes_shape (sp : SubParsers) (d : Dialect) (i : List Nat) :
    (∃ q, parse_alter_table_bytes sp d i = Except.ok q) ∨
      parse_alter_table_bytes sp d i = Except.error "failed to parse query" := by
  cases h : sp.alter_table_statement d i with
  | none => right; simp [parse_alter_table_bytes, h]
  | some r =>
    obtain ⟨rem, o⟩ := r
    by_cases hr : rem = []
    · left; exact ⟨o, by simp [parse_alter_table_bytes, h, hr]⟩
    · right; simp [parse_alter_table_bytes, h, hr]

/-- Either `parse_key_specification_bytes` succeeds, or it returns the
fixed opaque error string. -/
lemma parse_key_spec_bytes_shape (sp : SubParsers) (d : Dialect) (i : List Nat) :
    (∃ q, parse_key_specification_bytes sp d i = Except.ok q) ∨
      parse_key_specification_bytes sp d i = Except.error "failed to parse query" := by
  cases h : sp.key_specification d i with
  | none => right; simp [parse_key_specification_bytes, h]
  | some r => left; exact ⟨r.2, by simp [parse_key_specification_bytes, h]⟩

/-- C2: for every dialect and byte input, the dispatcher `sql_query` tries
the twenty statement sub-parsers in exactly the fixed order create-table,
insert, compound-select, select, delete, drop-table, drop-view, update,
set, create-view, create-cache, drop-cache, alter-table,
start-transaction, commit, rollback, rename-table, use, show, explain
(the order of `parserList`), returning the result of the first sub-parser
that succeeds wrapped in the matching `SqlQuery` variant, and fails only
if all twenty fail. -/
theorem claim2_dispatch_order (sp : SubParsers) (d : Dialect) (i : List Nat) :
    sql_query sp d i = firstSome (parserList sp d) i
    ∧ (parserList sp d).length = 20
    ∧ (sql_query sp d i = none ↔ ∀ p ∈ parserList sp d, p i = none) := by
  refine ⟨sql_query_eq_firstSome sp d i, rfl, ?_⟩
  rw [sql_query_eq_firstSome]
  exact firstSome_eq_none_iff _ i

/-- C3: `parse_select_statement_bytes`, `parse_create_table_bytes` and
`parse_alter_table_bytes` return `ok node` exactly when the corresponding
sub-parser succeeds with an empty remainder; a successful sub-parse with a
non-empty remainder yields the error. -/
theorem claim3_full_consumption (sp : SubParsers) (d : Dialect) (i : List Nat) :
    (∀ node, parse_select_statement_bytes sp d i = Except.ok node ↔
      sp.selection d i = some ([], node))
    ∧ (∀ node, parse_create_table_bytes sp d i = Except.ok node ↔
      sp.creation d i = some ([], node))
    ∧ (∀ node, parse_alter_table_bytes sp d i = Except.ok node ↔
      sp.alter_table_statement d i = some ([], node))
    ∧ (∀ rem node, sp.selection d i = some (rem, node) → rem ≠ [] →
      parse_select_statement_bytes sp d i = Except.error "failed to parse query")
    ∧ (∀ rem node, sp.creation d i = some (rem, node) → rem ≠ [] →
      parse_create_table_bytes sp d i = Except.error "failed to parse query")
    ∧ (∀ rem node, sp.alter_table_statement d i = some (rem, node) → rem ≠ [] →
      parse_alter_table_bytes sp d i = Except.error "failed to parse query") := by
  refine ⟨?_, ?_, ?_, ?_, ?_, ?_⟩
  · intro node
    cases h : sp.selection d i with
    | none => simp [parse_select_statement_bytes, h]
    | some r =>
      obtain ⟨rem, o⟩ := r
      by_cases hr : rem = [] <;>
        simp [parse_select_statement_bytes, h, hr, eq_comm]
  · intro node
    cases h : sp.creation d i with
    | none => simp [parse_create_table_bytes, h]
    | some r =>
      obtain ⟨rem, o⟩ := r
      by_cases hr : rem = [] <;>
        simp [parse_create_table_bytes, h, hr, eq_comm]
  · intro node
    cases h : sp.alter_table_statement d i with
    | none => simp [parse_alter_table_bytes, h]
    | some r =>
      obtain ⟨rem, o⟩ := r
      by_cases hr : rem = [] <;>
        simp [parse_alter_table_bytes, h, hr, eq_comm]
  · intro rem node h hr
    simp [parse_select_statement_bytes, h, hr]
  · intro rem node h hr
    simp [parse_create_table_bytes, h, hr]
  · intro rem node h hr
    simp [parse_alter_table_bytes, h, hr]

/-- Witness for C3: `spX.selection` succeeds on `[84]` leaving the
remainder `[9]`, and the entry point rejects it. -/
theorem claim3_witness :
    parse_select_statement_bytes spX Dialect.MySQL [84] =
      Except.error "failed to parse query" :=
  (claim3_full_consumption spX Dialect.MySQL [84]).2.2.2.1 [9] ⟨tok0⟩
    rfl (by decide)

/-- C4: `parse_query_bytes` returns `ok` whenever the dispatcher succeeds,
discarding any unconsumed remainder, and `parse_key_specification_bytes`
returns `ok` whenever `key_specification` succeeds, regardless of
remainder. -/
theorem claim4_remainder_ignored (sp : SubParsers) (d : Dialect) (i : List Nat) :
    (∀ rem q, sql_query sp d i = some (rem, q) →
      parse_query_bytes sp d i = Except.ok q)
    ∧ (∀ rem k, sp.key_specification d i = some (rem, k) →
      parse_key_specification_bytes sp d i = Except.ok k) := by
  constructor
  · intro rem q h
    simp [parse_query_bytes, h]
  · intro rem k h
    simp [parse_key_specification_bytes, h]

/-- Witness for C4: `spX`'s `creation` leaves the remainder `[7]` on the
input `[99]`, and `spX`'s `key_specification` leaves the whole input `[5]`
as remainder; both entry points still succeed. -/
theorem claim4_witness :
    parse_query_bytes spX Dialect.MySQL [99] =
      Except.ok (SqlQuery.CreateTable ⟨tok0⟩)
    ∧ parse_key_specification_bytes spX Dialect.MySQL [5] =
      Except.ok ⟨tok0⟩ :=
  ⟨(claim4_remainder_ignored spX Dialect.MySQL [99]).1 [7]
      (SqlQuery.CreateTable ⟨tok0⟩) rfl,
   (claim4_remainder_ignored spX Dialect.MySQL [5]).2 [5] ⟨tok0⟩ rfl⟩

/-- C5: each string entry point trims leading/trailing whitespace, converts
to bytes, and delegates to its byte counterpart; trimming is the only
normalization applied before parsing. -/
theorem claim5_text_delegation (sp : SubParsers) (d : Dialect) (s : List Char) :
    parse_query sp d s = parse_query_bytes sp d (asBytes (strTrim s))
    ∧ parse_select_statement sp d s =
      parse_select_statement_bytes sp d (asBytes (strTrim s))
    ∧ parse_key_specification_string sp d s =
      parse_key_specification_bytes sp d (asBytes (strTrim s)) :=
  ⟨rfl, rfl, rfl⟩

/-- C6: `query_type` is total over all 20 variants, returns a fixed
non-empty uppercase string determined solely by the active variant
(discriminant), and maps both `Select` and `CompoundSelect` to "SELECT". -/
theorem claim6_classification_total (q : SqlQuery) :
    SqlQuery.query_type q ≠ ""
    ∧ isUpperTag (SqlQuery.query_type q) = true
    ∧ (∀ q' : SqlQuery, SqlQuery.discr q = SqlQuery.discr q' →
      SqlQuery.query_type q = SqlQuery.query_type q')
    ∧ (∀ s : SelectStatement,
      SqlQuery.query_type (SqlQuery.Select s) = "SELECT")
    ∧ (∀ c : CompoundSelectStatement,
      SqlQuery.query_type (SqlQuery.CompoundSelect c) = "SELECT") := by
  refine ⟨?_, ?_, ?_, fun _ => rfl, fun _ => rfl⟩
  · cases q <;> simp only [SqlQuery.query_type] <;> decide
  · cases q <;> simp only [SqlQuery.query_type] <;> decide
  · intro q' h
    cases q <;> cases q' <;>
      first
        | rfl
        | (simp only [SqlQuery.discr] at h; omega)

/-- Witness for C6: two distinct SELECT nodes share the discriminant and
hence the tag. -/
theorem claim6_witness :
    SqlQuery.query_type qS = SqlQuery.query_type (SqlQuery.Select ⟨[1]⟩) :=
  (claim6_classification_total qS).2.2.1 (SqlQuery.Select ⟨[1]⟩) rfl

/-- C7: whenever any public entry point (byte or string flavor of
query, select, create-table, alter-table, key-specification) fails, the
error is the single fixed value "failed to parse query". -/
theorem claim7_opaque_error (sp : SubParsers) (d : Dialect) (i : List Nat)
    (s : List Char) :
    ((∃ q, parse_query_bytes sp d i = Except.ok q) ∨
      parse_query_bytes sp d i = Except.error "failed to parse query")
    ∧ ((∃ q, parse_query sp d s = Except.ok q) ∨
      parse_query sp d s = Except.error "failed to parse query")
    ∧ ((∃ q, parse_select_statement_bytes sp d i = Except.ok q) ∨
      parse_select_statement_bytes sp d i = Except.error "failed to parse query")
    ∧ ((∃ q, parse_select_statement sp d s = Except.ok q) ∨
      parse_select_statement sp d s = Except.error "failed to parse query")
    ∧ ((∃ q, parse_create_table_bytes sp d i = Except.ok q) ∨
      parse_create_table_bytes sp d i = Except.error "failed to parse query")
    ∧ ((∃ q, parse_create_table sp d s = Except.ok q) ∨
      parse_create_table sp d s = Except.error "failed to parse query")
    ∧ ((∃ q, parse_alter_table_bytes sp d i = Except.ok q) ∨
      parse_alter_table_bytes sp d i = Except.error "failed to parse query")
    ∧ ((∃ q, parse_alter_table sp d s = Except.ok q) ∨
      parse_alter_table sp d s = Except.error "failed to parse query")
    ∧ ((∃ q, parse_key_specification_bytes sp d i = Except.ok q) ∨
      parse_key_specification_bytes sp d i = Except.error "failed to parse query")
    ∧ ((∃ q, parse_key_specification_string sp d s = Except.ok q) ∨
      parse_key_specification_string sp d s = Except.error "failed to parse query") :=
  ⟨parse_query_bytes_shape sp d i,
   parse_query_bytes_shape sp d (asBytes (strTrim s)),
   parse_select_bytes_shape sp d i,
   parse_select_bytes_shape sp d (asBytes (strTrim s)),
   parse_create_table_bytes_shape sp d i,
   parse_create_table_bytes_shape sp d (asBytes (strTrim s)),
   parse_alter_table_bytes_shape sp d i,
   parse_alter_table_bytes_shape sp d (asBytes (strTrim s)),
   parse_key_spec_bytes_shape sp d i,
   parse_key_spec_bytes_shape sp d (asBytes (strTrim s))⟩

/-- C8: two `SqlQuery` values are equal iff their active variant and
wrapped node are equal (derive-style structural equality), equal values
hash identically, and independently parsed queries (even under different
dialects) that are structurally equal hash identically. -/
theorem claim8_eq_hash (q1 q2 : SqlQuery) :
    (SqlQuery.structEq q1 q2 = true ↔ q1 = q2)
    ∧ (q1 = q2 → SqlQuery.hashQ q1 = SqlQuery.hashQ q2)
    ∧ (∀ (sp : SubParsers) (d1 d2 : Dialect) (i1 i2 : List Char),
      parse_query sp d1 i1 = Except.ok q1 →
      parse_query sp d2 i2 = Except.ok q2 →
      SqlQuery.structEq q1 q2 = true →
      q1 = q2 ∧ SqlQuery.hashQ q1 = SqlQuery.hashQ q2) := by
  have h1 : SqlQuery.structEq q1 q2 = true ↔ q1 = q2 := by
    constructor
    · intro h
      cases q1 <;> cases q2 <;>
        first
          | exact congrArg _ (of_decide_eq_true h)
          | exact Bool.noConfusion h
    · intro h
      subst h
      cases q1 <;> exact decide_eq_true rfl
  refine ⟨h1, ?_, ?_⟩
  · intro h
    rw [h]
  · intro sp d1 d2 i1 i2 _ _ hse
    have heq := h1.mp hse
    exact ⟨heq, by rw [heq]⟩

/-- Witness for C8: the same query parsed from "S" under MySQL and under
PostgreSQL is structurally equal and hashes identically. -/
theorem claim8_witness :
    qS = qS ∧ SqlQuery.hashQ qS = SqlQuery.hashQ qS :=
  (claim8_eq_hash qS qS).2.2 spX Dialect.MySQL Dialect.PostgreSQL
    ['S'] ['S'] rfl rfl rfl

/-- C9: every public entry point (and the dispatcher) is deterministic:
invocations with equal (dialect, input) pairs return identical results;
the embedding has no global or mutable state to depend on. -/
theorem claim9_determinism (sp : SubParsers) (d1 d2 : Dialect)
    (i1 i2 : List Nat) (s1 s2 : List Char)
    (hd : d1 = d2) (hi : i1 = i2) (hs : s1 = s2) :
    parse_query_bytes sp d1 i1 = parse_query_bytes sp d2 i2
    ∧ parse_query sp d1 s1 = parse_query sp d2 s2
    ∧ parse_select_statement_bytes sp d1 i1 = parse_select_statement_bytes sp d2 i2
    ∧ parse_select_statement sp d1 s1 = parse_select_statement sp d2 s2
    ∧ parse_create_table_bytes sp d1 i1 = parse_create_table_bytes sp d2 i2
    ∧ parse_create_table sp d1 s1 = parse_create_table sp d2 s2
    ∧ parse_alter_table_bytes sp d1 i1 = parse_alter_table_bytes sp d2 i2
    ∧ parse_alter_table sp d1 s1 = parse_alter_table sp d2 s2
    ∧ parse_key_specification_bytes sp d1 i1 = parse_key_specification_bytes sp d2 i2
    ∧ parse_key_specification_string sp d1 s1 = parse_key_specification_string sp d2 s2
    ∧ sql_query sp d1 i1 = sql_query sp d2 i2 := by
  subst hd
  subst hi
  subst hs
  exact ⟨rfl, rfl, rfl, rfl, rfl, rfl, rfl, rfl, rfl, rfl, rfl⟩

/-- Witness for C9: two invocations on the concrete pair agree. -/
theorem claim9_witness :
    parse_query_bytes spX Dialect.MySQL [83] =
      parse_query_bytes spX Dialect.MySQL [83] :=
  (claim9_determinism spX Dialect.MySQL Dialect.MySQL [83] [83]
    ['S'] ['S'] rfl rfl rfl).1

/-- C10: `SqlQuery`'s `FromStr` fixes the MySQL dialect: `from_str s` is
exactly `parse_query (Dialect.MySQL, s)` for every string. -/
theorem claim10_from_str_mysql (sp : SubParsers) (s : List Char) :
    SqlQuery.from_str sp s = parse_query sp Dialect.MySQL s :=
  rfl

/-- C1: round-trip canonicalization through the entry-point glue: if
`parse_query` succeeds on `T` yielding `Q`, the canonical rendering of `Q`
has no edge whitespace, its sub-parser (the one at `Q`'s position in the
dispatch order) re-parses it to `Q`, and every earlier alternative fails
on it, then `parse_query` on the rendering succeeds and yields `Q`
(the per-kind round-trip and fail-fast facts are the spec's collaborator
contract for the external sub-grammars and renderers, spec §4.4/§8). -/
theorem claim1_round_trip (sp : SubParsers) (r : NodeDisplays) (d : Dialect)
    (T : List Char) (Q : SqlQuery)
    (hidx : dispatchIndex Q < (parserList sp d).length)
    (_hT : parse_query sp d T = Except.ok Q)
    (htrim : strTrim (SqlQuery.fmt r Q) = SqlQuery.fmt r Q)
    (hhit : ∃ rem, (parserList sp d).get ⟨dispatchIndex Q, hidx⟩
      (asBytes (SqlQuery.fmt r Q)) = some (rem, Q))
    (hearlier : ∀ j (hj : j < dispatchIndex Q),
      (parserList sp d).get ⟨j, lt_trans hj hidx⟩
        (asBytes (SqlQuery.fmt r Q)) = none) :
    parse_query sp d (SqlQuery.fmt r Q) = Except.ok Q := by
  obtain ⟨rem, hr⟩ := hhit
  have hfs : firstSome (parserList sp d) (asBytes (SqlQuery.fmt r Q)) =
      some (rem, Q) :=
    firstSome_of_hit _ _ _ hidx _ hearlier hr
  unfold parse_query parse_query_bytes
  rw [htrim, sql_query_eq_firstSome, hfs]

/-- Witness for C1: the toy collaborator family round-trips the SELECT
query parsed from "S". -/
theorem claim1_witness :
    parse_query spX Dialect.MySQL (SqlQuery.fmt rX qS) = Except.ok qS := by
  refine claim1_round_trip spX rX Dialect.MySQL ['S'] qS
    (by simp [dispatchIndex, parserList, qS]) rfl rfl ⟨[], rfl⟩ ?_
  intro j hj
  have h3 : j < 3 := hj
  interval_cases j <;> rfl
